import Mathlib

/-!
Shallow embedding of the authentication / session lifecycle of the
`lab-ai-blood-analyzer-be` backend (NestJS + TypeORM), covering
`AuthService` (`handleOAuthLogin`, `requestMagicLink`, `consumeMagicLink`,
`refresh`, `logout`, `generateTokens`), the `UserEntity` and magic-link
token rows, and the `UserResponseDto` mapping.

Conventions of the embedding:
* The database is an explicit `DB` value (list of user rows, list of
  magic-link token rows); every service method is a function
  `DB → DB × Except AppError α`, returning the store as it stands when the
  method returns or throws.  Methods that run inside an explicit
  `queryRunner` transaction (`handleOAuthLogin`, `logout`) roll back to the
  original store on any failure, mirroring `rollbackTransaction()`.
* Timestamps are `Nat` epoch milliseconds; `Date.now()` becomes an explicit
  `now` argument.
* Signed JWTs are modelled symbolically as `SignedToken` records carrying
  the payload (`sub`, `email`), the signing secret and the `iat`/`exp`
  instants; `verify` checks the secret and the expiry exactly as the JWT
  library does (expired iff `exp ≤ now`).
* Nondeterministic inputs of the real code (uuid generation, row-id
  generation) are explicit `fresh…` arguments; injectable faults (store
  errors, email-send failures) are explicit arguments so that the
  catch-all error handling of the source can be proved about.
* JS string truthiness (`x || y` on possibly-null / possibly-empty
  strings) is modelled by `jsOr` on `Option String`, where `none` (null)
  and `some ""` are falsy.
-/

namespace BloodAnalyzer

/-- Error taxonomy of the service layer: the Nest HTTP exceptions thrown by
`AuthService` plus the non-HTTP failures that can cross it (JWT library
errors, database/store errors). -/
inductive AppError where
  | unauthorized (msg : String)
  | notFound (msg : String)
  | badRequest (msg : String)
  | jwtError (msg : String)
  | storeError (msg : String)
deriving DecidableEq, Repr

deriving instance DecidableEq for Except

/-- JWT payload, from `src/types/jwt-payload.interface.ts`:
`sub` is the user id, `email` is optional. -/
structure JwtPayload where
  sub : String
  email : Option String
deriving DecidableEq, Repr

/-- Symbolic model of a signed JWT: payload fields plus the signing secret
and the issue/expiry instants that `jwtService.sign` embeds. -/
structure SignedToken where
  sub : String
  email : Option String
  secret : String
  iat : Nat
  exp : Nat
deriving DecidableEq, Repr

/-- `users` table row, from `UserEntity`
(`src/modules/auth/entities/user.entity.ts`, reproduced in
`src/unnamed/part_006`): uuid primary key, unique email, provider tag,
nullable provider id / name fields / picture / refreshToken. -/
structure UserEntity where
  id : String
  email : String
  provider : String
  providerId : Option String
  firstName : Option String
  lastName : Option String
  picture : Option String
  refreshToken : Option SignedToken
  createdAt : Nat
deriving DecidableEq, Repr

/-- Modelled from the spec: the magic-link one-time token row
(`MagicLinkTokenEntity`), whose entity declaration is not among the
provided sources (only its callers are).  Per the spec's data model it has
a unique random token string, an owning user reference and an absolute
expiry timestamp in epoch milliseconds; callers also use a row `id`
(`tokenRepository.delete({ id: magicLinkToken.id })`). -/
structure MagicLinkTokenEntity where
  id : Nat
  token : String
  userId : String
  expiresAt : Nat
deriving DecidableEq, Repr

/-- The persistent store visible to `AuthService`: the `users` table and
the magic-link token table. -/
structure DB where
  users : List UserEntity
  tokens : List MagicLinkTokenEntity
deriving DecidableEq, Repr

/-- Operator configuration read through `ConfigService`: the two signing
secrets and the three expiry windows (seconds). -/
structure Config where
  jwtSecret : String
  jwtRefreshSecret : String
  jwtExpiresInSeconds : Nat
  jwtRefreshExpiresInSeconds : Nat
  magicLinkExpirySeconds : Nat
deriving DecidableEq, Repr

/-- Normalized OAuth profile
(`src/types/oauth-profile.interface.ts` as built by the strategies):
provider tag, provider-specific id, email, and possibly null/empty name
and picture fields. -/
structure OAuthProfile where
  provider : String
  providerId : String
  email : String
  firstName : Option String
  lastName : Option String
  picture : Option String
deriving DecidableEq, Repr

/-- JS truthiness of a nullable string: `null`/`undefined` and `""` are
falsy. -/
def truthy : Option String → Bool
  | none => false
  | some s => s ≠ ""

/-- JS `a || b` on nullable strings. -/
def jsOr (a b : Option String) : Option String :=
  if truthy a then a else b

/-- `jwtService.sign(payload, { secret, expiresIn })` at instant `now`:
the token carries the payload, the secret, `iat = now` and
`exp = now + expiresIn` (seconds scaled to the millisecond clock used
throughout the embedding). -/
def sign (payload : JwtPayload) (secret : String) (expiresInSeconds now : Nat) :
    SignedToken :=
  { sub := payload.sub, email := payload.email, secret := secret
    iat := now, exp := now + expiresInSeconds * 1000 }

/-- `jwtService.verify(token, { secret })` at instant `now`: fails with a
JWT-library error (not an HTTP exception) on a wrong secret or on expiry
(`exp ≤ now`), otherwise yields the payload. -/
def verifyJwt (tok : SignedToken) (secret : String) (now : Nat) :
    Except AppError JwtPayload :=
  if tok.secret ≠ secret then .error (.jwtError "invalid signature")
  else if tok.exp ≤ now then .error (.jwtError "jwt expired")
  else .ok { sub := tok.sub, email := tok.email }

/-- The `{accessToken, refreshToken}` pair returned by
`AuthService.generateTokens` and `AuthService.refresh`. -/
structure TokenPair where
  accessToken : SignedToken
  refreshToken : SignedToken
deriving DecidableEq, Repr

/-- `AuthService.generateTokens(user)`: signs `{sub: user.id, email}` with
the access secret/expiry and with the refresh secret/expiry. -/
def generateTokens (cfg : Config) (now : Nat) (user : UserEntity) : TokenPair :=
  let payload : JwtPayload := { sub := user.id, email := some user.email }
  { accessToken := sign payload cfg.jwtSecret cfg.jwtExpiresInSeconds now
    refreshToken := sign payload cfg.jwtRefreshSecret cfg.jwtRefreshExpiresInSeconds now }

/-- `UserResponseDto` (public profile shape, constructor at
`src/modules/auth/dto/user-response.dto.ts` lines 65–73): id, email,
name fields, picture, provider, createdAt — and nothing else. -/
structure UserResponseDto where
  id : String
  email : String
  firstName : Option String
  lastName : Option String
  picture : Option String
  provider : String
  createdAt : Nat
deriving DecidableEq, Repr

/-- The `UserResponseDto(user)` constructor body (lines 65–73). -/
def UserResponseDto.ofUser (u : UserEntity) : UserResponseDto :=
  { id := u.id, email := u.email, firstName := u.firstName
    lastName := u.lastName, picture := u.picture, provider := u.provider
    createdAt := u.createdAt }

/-- The earlier draft of `UserResponseDto` in the same file (constructor at
lines 21–26): only id, email, provider, createdAt. -/
structure UserResponseDtoV1 where
  id : String
  email : String
  provider : String
  createdAt : Nat
deriving DecidableEq, Repr

/-- The draft constructor body (lines 21–26). -/
def UserResponseDtoV1.ofUser (u : UserEntity) : UserResponseDtoV1 :=
  { id := u.id, email := u.email, provider := u.provider, createdAt := u.createdAt }

/-- `AuthResponseDto`: what `handleOAuthLogin` / `consumeMagicLink`
return. -/
structure AuthResponseDto where
  accessToken : SignedToken
  refreshToken : SignedToken
  expiresIn : Nat
  user : UserResponseDto
deriving DecidableEq, Repr

/-- Fault-injection points inside the `handleOAuthLogin` transaction: the
user lookup and the user save can fail at the store layer. -/
inductive TxStep where
  | findUser
  | saveUser
deriving DecidableEq, Repr

/-- The user row built by `queryRunner.manager.create(UserEntity, {...profile})`
for a never-seen profile: profile fields spread in, uuid `freshId`
assigned at save, refresh token initially null. -/
def userFromProfile (freshId : String) (now : Nat) (p : OAuthProfile) : UserEntity :=
  { id := freshId, email := p.email, provider := p.provider
    providerId := some p.providerId, firstName := p.firstName
    lastName := p.lastName, picture := p.picture, refreshToken := none
    createdAt := now }

/-- The in-place profile refresh applied to an existing user row by
`handleOAuthLogin` (guards file, lines 170–174): provider and providerId
overwritten, mutable fields via JS `||` (new value wins if non-empty). -/
def refreshProfileFields (u : UserEntity) (p : OAuthProfile) : UserEntity :=
  { u with provider := p.provider, providerId := some p.providerId
           firstName := jsOr p.firstName u.firstName
           lastName := jsOr p.lastName u.lastName
           picture := jsOr p.picture u.picture }

/-- `AuthService.handleOAuthLogin(profile)` (current draft, appended in
`src/src/modules/auth/guards/linkedin-oauth.guard.ts` lines 152–204):
inside a queryRunner transaction, look up a user by email, create from the
profile if absent or refresh its mutable fields if present, issue tokens,
pin the new refresh token on the row, save, commit.  On any failure the
transaction is rolled back (store restored to `db`) and the original error
is rethrown unchanged.  `failAt` injects a store failure at the given
step. -/
def handleOAuthLogin (cfg : Config) (now : Nat) (freshId : String)
    (failAt : Option (TxStep × String)) (db : DB) (p : OAuthProfile) :
    DB × Except AppError AuthResponseDto :=
  match failAt with
  | some (.findUser, msg) => (db, .error (.storeError msg))
  | _ =>
    let existing := db.users.find? (fun u => u.email == p.email)
    let user : UserEntity :=
      match existing with
      | none => userFromProfile freshId now p
      | some u => refreshProfileFields u p
    let tokens := generateTokens cfg now user
    let user' : UserEntity := { user with refreshToken := some tokens.refreshToken }
    match failAt with
    | some (.saveUser, msg) => (db, .error (.storeError msg))
    | _ =>
      let users' :=
        match existing with
        | none => db.users ++ [user']
        | some _ => db.users.map (fun u => if u.id == user'.id then user' else u)
      ({ db with users := users' },
       .ok { accessToken := tokens.accessToken, refreshToken := tokens.refreshToken
             expiresIn := cfg.jwtExpiresInSeconds, user := UserResponseDto.ofUser user' })

/-- `AuthService.requestMagicLink(email)` (guards file, lines 206–260):
find-or-create the user by email (provider `magic_link`), delete that
user's already-expired tokens (`expiresAt: LessThan(Date.now())`), store a
fresh token expiring `MAGIC_LINK_EXPIRY_SECONDS` from now, then send the
email.  The whole body is wrapped in try/catch: any failure surfaces as a
generic `BadRequestException`; writes already performed are not rolled
back (no transaction here).  `freshToken`/`freshUserId`/`freshTokenId` are
the generated uuid/row ids; `emailFails` injects a send failure. -/
def requestMagicLink (cfg : Config) (now : Nat)
    (freshToken : String) (freshUserId : String) (freshTokenId : Nat)
    (emailFails : Bool) (db : DB) (email : String) :
    DB × Except AppError Unit :=
  let expiresAt := now + cfg.magicLinkExpirySeconds * 1000
  let found := db.users.find? (fun u => u.email == email)
  let user : UserEntity :=
    match found with
    | some u => u
    | none =>
      { id := freshUserId, email := email, provider := "magic_link"
        providerId := none, firstName := none, lastName := none
        picture := none, refreshToken := none, createdAt := now }
  let users1 :=
    match found with
    | some _ => db.users
    | none => db.users ++ [user]
  let tokens1 := db.tokens.filter
    (fun t => !(t.userId == user.id && decide (t.expiresAt < now)))
  let newTok : MagicLinkTokenEntity :=
    { id := freshTokenId, token := freshToken, userId := user.id, expiresAt := expiresAt }
  let db' : DB := { users := users1, tokens := tokens1 ++ [newTok] }
  if emailFails then (db', .error (.badRequest "Failed to send magic link"))
  else (db', .ok ())

/-- `AuthService.consumeMagicLink(token)` (guards file, lines 262–296):
look up the token row (throw `Unauthorized` if absent), throw
`Unauthorized` if `expiresAt < Date.now()`, otherwise issue tokens for the
owning user, pin the refresh token on the user row, delete the consumed
token row by id, and return the auth response.  No transaction; errors
leave the store as already written. -/
def consumeMagicLink (cfg : Config) (now : Nat) (db : DB) (token : String) :
    DB × Except AppError AuthResponseDto :=
  match db.tokens.find? (fun t => t.token == token) with
  | none => (db, .error (.unauthorized "Invalid magic link token"))
  | some mlt =>
    if mlt.expiresAt < now then
      (db, .error (.unauthorized "Magic link token expired"))
    else
      match db.users.find? (fun u => u.id == mlt.userId) with
      | none => (db, .error (.storeError "token owner row missing"))
      | some user =>
        let tokens := generateTokens cfg now user
        let user' : UserEntity := { user with refreshToken := some tokens.refreshToken }
        let db' : DB :=
          { users := db.users.map (fun u => if u.id == user.id then user' else u)
            tokens := db.tokens.filter (fun t => !(t.id == mlt.id)) }
        (db', .ok { accessToken := tokens.accessToken
                    refreshToken := tokens.refreshToken
                    expiresIn := cfg.jwtExpiresInSeconds
                    user := UserResponseDto.ofUser user' })

/-- The body of the `try` block of `AuthService.refresh(refreshToken)`
(guards file, lines 298–330): verify the presented token against the
refresh secret, load the user by `payload.sub` (`storeFails` injects a
store-layer failure there), reject if absent or if the stored token slot
differs from the presented token, else rotate: issue a fresh pair, pin the
new refresh token, save. -/
def refreshTry (cfg : Config) (now : Nat) (storeFails : Bool)
    (db : DB) (tok : SignedToken) : DB × Except AppError TokenPair :=
  match verifyJwt tok cfg.jwtRefreshSecret now with
  | .error e => (db, .error e)
  | .ok payload =>
    if storeFails then (db, .error (.storeError "user store failure"))
    else
      match db.users.find? (fun u => u.id == payload.sub) with
      | none => (db, .error (.unauthorized "Invalid refresh token"))
      | some user =>
        if user.refreshToken ≠ some tok then
          (db, .error (.unauthorized "Invalid refresh token"))
        else
          let tokens := generateTokens cfg now user
          let user' : UserEntity := { user with refreshToken := some tokens.refreshToken }
          ({ db with users := db.users.map (fun u => if u.id == user.id then user' else u) },
           .ok tokens)

/-- `AuthService.refresh(refreshToken)`: the try body wrapped in the
catch-all that converts every failure — JWT errors, the explicit
`UnauthorizedException`s, and store errors alike — into
`UnauthorizedException('Invalid refresh token')`.  All throwing paths
precede any store write, so the store is unchanged on failure. -/
def refresh (cfg : Config) (now : Nat) (storeFails : Bool)
    (db : DB) (tok : SignedToken) : DB × Except AppError TokenPair :=
  match refreshTry cfg now storeFails db tok with
  | (db', .ok r) => (db', .ok r)
  | (_, .error _) => (db, .error (.unauthorized "Invalid refresh token"))

/-- The `{message}` confirmation returned by `logout`. -/
structure LogoutResult where
  message : String
deriving DecidableEq, Repr

/-- `AuthService.logout(userId)` (current draft, guards file lines
332–375): inside a queryRunner transaction, load the user (throw
`NotFoundException` if absent — rethrown unchanged after rollback), null
the refresh-token slot, save, delete all magic-link token rows of that
user, commit, return the confirmation message. -/
def logout (db : DB) (userId : String) : DB × Except AppError LogoutResult :=
  match db.users.find? (fun u => u.id == userId) with
  | none => (db, .error (.notFound "User not found"))
  | some user =>
    let user' : UserEntity := { user with refreshToken := none }
    let db' : DB :=
      { users := db.users.map (fun u => if u.id == user.id then user' else u)
        tokens := db.tokens.filter (fun t => !(t.userId == userId)) }
    (db', .ok { message := "Logged out successfully" })

/-! ## Helper lemmas -/

/-- `find?` by id over a list updated at one id: if the lookup previously
found `w`, the same lookup over the updated list finds the replacement
`v` (which keeps the id). -/
lemma find?_map_update (l : List UserEntity) (p : String) (w v : UserEntity)
    (hw : l.find? (fun x => x.id == p) = some w) (hv : v.id = w.id) :
    (l.map (fun x => if x.id == w.id then v else x)).find? (fun x => x.id == p)
      = some v := by
  have hwp : w.id = p := by
    have := List.find?_some hw
    simpa using this
  induction l with
  | nil => simp at hw
  | cons a l ih =>
    by_cases ha : a.id = p
    · rw [List.find?_cons_of_pos _ (by simpa using ha)] at hw
      have haw : a = w := by simpa using hw
      subst haw
      simp only [List.map_cons]
      rw [if_pos (by simp)]
      exact List.find?_cons_of_pos _ (by simp [hv, hwp])
    · rw [List.find?_cons_of_neg _ (by simpa using ha)] at hw
      simp only [List.map_cons]
      rw [if_neg (by simp only [beq_iff_eq, hwp]; exact ha)]
      rw [List.find?_cons_of_neg _ (by simpa using ha)]
      exact ih hw

/-! ## Claim theorems -/

/-- C8: the profile response (`UserResponseDto` mapping, in both drafts
present in `user-response.dto.ts`) contains no refresh-token field — two
user rows that differ only in their stored `refreshToken` value map to
identical responses. -/
theorem userResponseDto_ignores_refreshToken (u : UserEntity) (rt : Option SignedToken) :
    UserResponseDto.ofUser { u with refreshToken := rt } = UserResponseDto.ofUser u ∧
    UserResponseDtoV1.ofUser { u with refreshToken := rt } = UserResponseDtoV1.ofUser u :=
  ⟨rfl, rfl⟩

/-- C3: `handleOAuthLogin` runs lookup, create-or-update, token issuance
and refresh-token persistence in one transaction: a store failure injected
at any step leaves the store exactly as it was (rollback) and propagates
the original error untranslated; with no failure the whole update commits
and the call returns the auth response. -/
theorem handleOAuthLogin_atomic (cfg : Config) (now : Nat) (freshId : String)
    (db : DB) (p : OAuthProfile) :
    (∀ step msg, handleOAuthLogin cfg now freshId (some (step, msg)) db p
        = (db, .error (.storeError msg))) ∧
    ∃ db' r, handleOAuthLogin cfg now freshId none db p = (db', .ok r) := by
  refine ⟨fun step msg => ?_, ⟨_, _, rfl⟩⟩
  cases step <;> rfl

/-- C10: `refresh` raises only `Unauthorized`: whatever the failure mode —
JWT verification error, unknown subject, stored-token mismatch, or an
injected user-store error — the result is either a success or exactly
`Unauthorized "Invalid refresh token"`; no other error kind escapes. -/
theorem refresh_raises_only_unauthorized (cfg : Config) (now : Nat)
    (storeFails : Bool) (db : DB) (tok : SignedToken) :
    (∃ pair, (refresh cfg now storeFails db tok).2 = .ok pair) ∨
    (refresh cfg now storeFails db tok).2
      = .error (.unauthorized "Invalid refresh token") := by
  unfold refresh
  rcases h : refreshTry cfg now storeFails db tok with ⟨db', r⟩
  cases r with
  | error e => right; simp
  | ok pair => left; exact ⟨pair, by simp⟩

/-- Inversion of a successful `consumeMagicLink`: the token row was
present and unexpired, its owner was found, and the resulting store is the
original with the refresh token pinned on the owner row and the consumed
token row deleted. -/
lemma consumeMagicLink_ok_inv (cfg : Config) (now : Nat) (db : DB)
    (token : String) (db' : DB) (r : AuthResponseDto)
    (h : consumeMagicLink cfg now db token = (db', .ok r)) :
    ∃ mlt user, db.tokens.find? (fun t => t.token == token) = some mlt ∧
      ¬ mlt.expiresAt < now ∧
      db.users.find? (fun u => u.id == mlt.userId) = some user ∧
      db' = { users := db.users.map (fun u => if u.id == user.id
                  then { user with
                          refreshToken := some (generateTokens cfg now user).refreshToken }
                  else u)
              tokens := db.tokens.filter (fun t => !(t.id == mlt.id)) } := by
  unfold consumeMagicLink at h
  split at h
  · simp at h
  · rename_i mlt hf
    split at h
    · simp at h
    · rename_i hexp
      split at h
      · simp at h
      · rename_i user hu
        injection h with h1 h2
        exact ⟨mlt, user, hf, hexp, hu, h1.symm⟩

/-- Two rows of a token list with pairwise-distinct token strings that
agree on the token string are the same row. -/
lemma token_string_unique {l : List MagicLinkTokenEntity}
    (hpw : l.Pairwise (fun a b => a.token ≠ b.token))
    {a b : MagicLinkTokenEntity} (ha : a ∈ l) (hb : b ∈ l)
    (hab : a.token = b.token) : a = b := by
  have hsym : Symmetric (fun a b : MagicLinkTokenEntity => a.token ≠ b.token) := by
    intro x y h he
    exact h he.symm
  by_contra hne
  exact hpw.forall hsym ha hb hne hab

/-- C2: `consumeMagicLink` fails with `Unauthorized` when the token is
absent from the store or when its stored expiry is earlier than the
current time; a successful consumption deletes the consumed row, so (with
the store's unique-token invariant) a second consumption of the same token
fails with `Unauthorized`. -/
theorem consumeMagicLink_single_use (cfg : Config) (db : DB) (token : String) :
    (db.tokens.find? (fun t => t.token == token) = none →
      ∀ now, consumeMagicLink cfg now db token
        = (db, .error (.unauthorized "Invalid magic link token"))) ∧
    (∀ now mlt, db.tokens.find? (fun t => t.token == token) = some mlt →
      mlt.expiresAt < now →
      consumeMagicLink cfg now db token
        = (db, .error (.unauthorized "Magic link token expired"))) ∧
    (∀ now db' r, db.tokens.Pairwise (fun a b => a.token ≠ b.token) →
      consumeMagicLink cfg now db token = (db', .ok r) →
      ∀ now2, (consumeMagicLink cfg now2 db' token).2
        = .error (.unauthorized "Invalid magic link token")) := by
  refine ⟨fun hnone now => by simp [consumeMagicLink, hnone],
          fun now mlt hfind hexp => by simp [consumeMagicLink, hfind, hexp], ?_⟩
  intro now db' r hpw hok now2
  obtain ⟨mlt, user, hfind, _, _, hdb'⟩ :=
    consumeMagicLink_ok_inv cfg now db token db' r hok
  have hnone : db'.tokens.find? (fun t => t.token == token) = none := by
    rw [hdb']
    dsimp only
    refine List.find?_eq_none.mpr ?_
    intro t ht hpt
    simp only [List.mem_filter] at ht
    obtain ⟨htmem, hid⟩ := ht
    have hteq : t.token = mlt.token := by
      have h1 : t.token = token := by simpa using hpt
      have h2 : mlt.token = token := by simpa using List.find?_some hfind
      rw [h1, h2]
    have := token_string_unique hpw htmem (List.mem_of_find?_eq_some hfind) hteq
    rw [this] at hid
    simp at hid
  simp [consumeMagicLink, hnone]

/-! Concrete data for witnesses. -/

/-- Concrete operator configuration used by witnesses. -/
def cfgW : Config :=
  { jwtSecret := "as", jwtRefreshSecret := "rs", jwtExpiresInSeconds := 900
    jwtRefreshExpiresInSeconds := 604800, magicLinkExpirySeconds := 900 }

/-- Concrete magic-link user row used by witnesses. -/
def userW : UserEntity :=
  { id := "u1", email := "a@b.c", provider := "magic_link", providerId := none
    firstName := none, lastName := none, picture := none, refreshToken := none
    createdAt := 0 }

/-- Concrete store for the C2 witness: one user, one magic-link token. -/
def dbC2 : DB := { users := [userW], tokens := [⟨1, "tk", "u1", 5000⟩] }

/-- Store after the successful consumption in the C2 witness. -/
def dbC2' : DB :=
  { users := [{ userW with
      refreshToken := some
        { sub := "u1", email := some "a@b.c", secret := "rs", iat := 100, exp := 604800100 } }]
    tokens := [] }

/-- Auth response of the successful consumption in the C2 witness. -/
def rC2 : AuthResponseDto :=
  { accessToken := { sub := "u1", email := some "a@b.c", secret := "as", iat := 100, exp := 900100 }
    refreshToken := { sub := "u1", email := some "a@b.c", secret := "rs", iat := 100, exp := 604800100 }
    expiresIn := 900
    user := { id := "u1", email := "a@b.c", firstName := none, lastName := none
              picture := none, provider := "magic_link", createdAt := 0 } }

/-- Witness for C2: on a concrete store, an absent token and an expired
token are rejected, and a consumed token is rejected on its second
consumption. -/
theorem consumeMagicLink_single_use_witness :
    consumeMagicLink cfgW 100 dbC2 "zz"
      = (dbC2, .error (.unauthorized "Invalid magic link token")) ∧
    consumeMagicLink cfgW 6000 dbC2 "tk"
      = (dbC2, .error (.unauthorized "Magic link token expired")) ∧
    (consumeMagicLink cfgW 200 dbC2' "tk").2
      = .error (.unauthorized "Invalid magic link token") :=
  ⟨(consumeMagicLink_single_use cfgW dbC2 "zz").1 rfl 100,
   (consumeMagicLink_single_use cfgW dbC2 "tk").2.1 6000 ⟨1, "tk", "u1", 5000⟩ rfl (by decide),
   (consumeMagicLink_single_use cfgW dbC2 "tk").2.2 100 dbC2' rC2
     (by simp [dbC2]) rfl 200⟩

/-- C9: consuming an expired magic-link token fails with `Unauthorized`
and leaves the entire store unchanged — the expired row is not deleted and
no user row (in particular no refresh-token slot) is modified; the expired
row is removed only by a later `requestMagicLink` sweep for that same
user. -/
theorem consumeMagicLink_expired_state_unchanged (cfg : Config) (now : Nat)
    (db : DB) (token : String) (mlt : MagicLinkTokenEntity)
    (hfind : db.tokens.find? (fun t => t.token == token) = some mlt)
    (hexp : mlt.expiresAt < now) :
    consumeMagicLink cfg now db token
      = (db, .error (.unauthorized "Magic link token expired")) ∧
    mlt ∈ db.tokens ∧
    ∀ freshTok freshUid freshTid emailFails owner,
      db.users.find? (fun u => u.email == owner.email) = some owner →
      owner.id = mlt.userId →
      mlt ∉ (requestMagicLink cfg now freshTok freshUid freshTid
              emailFails db owner.email).1.tokens := by
  refine ⟨by simp [consumeMagicLink, hfind, hexp],
          List.mem_of_find?_eq_some hfind, ?_⟩
  intro freshTok freshUid freshTid emailFails owner howner hoid hmem
  have h1 : (requestMagicLink cfg now freshTok freshUid freshTid emailFails
        db owner.email).1
      = { users := db.users
          tokens := db.tokens.filter
              (fun t => !(t.userId == owner.id && decide (t.expiresAt < now)))
            ++ [⟨freshTid, freshTok, owner.id, now + cfg.magicLinkExpirySeconds * 1000⟩] } := by
    cases emailFails <;> simp [requestMagicLink, howner]
  rw [h1] at hmem
  simp only [List.mem_append, List.mem_filter, List.mem_singleton] at hmem
  rcases hmem with ⟨_, hcond⟩ | hEq
  · rw [← hoid] at hcond
    simp [hexp] at hcond
  · have h2 : mlt.expiresAt = now + cfg.magicLinkExpirySeconds * 1000 := by
      rw [hEq]
    omega

/-- Concrete store for the C9 witness. -/
def dbC9 : DB := { users := [userW], tokens := [⟨1, "tk1", "u1", 500⟩] }

/-- Witness for C9: on a concrete store with an expired token, consumption
fails and changes nothing, and a later magic-link request for the owner
sweeps the expired row. -/
theorem consumeMagicLink_expired_state_unchanged_witness :
    consumeMagicLink cfgW 2000 dbC9 "tk1"
      = (dbC9, .error (.unauthorized "Magic link token expired")) ∧
    (⟨1, "tk1", "u1", 500⟩ : MagicLinkTokenEntity) ∈ dbC9.tokens ∧
    (⟨1, "tk1", "u1", 500⟩ : MagicLinkTokenEntity)
      ∉ (requestMagicLink cfgW 2000 "tk2" "u9" 7 false dbC9 userW.email).1.tokens := by
  have h := consumeMagicLink_expired_state_unchanged cfgW 2000 dbC9 "tk1"
    ⟨1, "tk1", "u1", 500⟩ rfl (by decide)
  exact ⟨h.1, h.2.1, h.2.2 "tk2" "u9" 7 false userW rfl rfl⟩

/-- Reduction of `handleOAuthLogin` (no injected failure) when the email
lookup finds an existing user: the row is profile-merged, given the fresh
refresh token, and saved in place. -/
lemma handleOAuthLogin_found (cfg : Config) (now : Nat) (freshId : String)
    (db : DB) (p : OAuthProfile) (u : UserEntity)
    (hfind : db.users.find? (fun x => x.email == p.email) = some u) :
    handleOAuthLogin cfg now freshId none db p
      = ({ db with users := db.users.map (fun x =>
            if x.id == u.id
            then { refreshProfileFields u p with
                    refreshToken :=
                      some (generateTokens cfg now (refreshProfileFields u p)).refreshToken }
            else x) },
        .ok { accessToken := (generateTokens cfg now (refreshProfileFields u p)).accessToken
              refreshToken := (generateTokens cfg now (refreshProfileFields u p)).refreshToken
              expiresIn := cfg.jwtExpiresInSeconds
              user := UserResponseDto.ofUser
                { refreshProfileFields u p with
                  refreshToken :=
                    some (generateTokens cfg now (refreshProfileFields u p)).refreshToken } }) := by
  simp only [handleOAuthLogin, hfind]
  rfl

/-- Reduction of `handleOAuthLogin` (no injected failure) when the email
lookup finds nothing: a new row is created from the profile, given the
fresh refresh token, and appended. -/
lemma handleOAuthLogin_notFound (cfg : Config) (now : Nat) (freshId : String)
    (db : DB) (p : OAuthProfile)
    (hfind : db.users.find? (fun x => x.email == p.email) = none) :
    handleOAuthLogin cfg now freshId none db p
      = ({ db with users := db.users ++
            [{ userFromProfile freshId now p with
                refreshToken :=
                  some (generateTokens cfg now (userFromProfile freshId now p)).refreshToken }] },
        .ok { accessToken := (generateTokens cfg now (userFromProfile freshId now p)).accessToken
              refreshToken := (generateTokens cfg now (userFromProfile freshId now p)).refreshToken
              expiresIn := cfg.jwtExpiresInSeconds
              user := UserResponseDto.ofUser
                { userFromProfile freshId now p with
                  refreshToken :=
                    some (generateTokens cfg now (userFromProfile freshId now p)).refreshToken } }) := by
  simp only [handleOAuthLogin, hfind]

/-- C5: for an existing user, `logout` clears the stored refresh-token
slot, deletes exactly the magic-link token rows belonging to that user,
and returns the confirmation message; for a missing user id it fails with
`NotFound` (rethrown unchanged after the transaction rollback). -/
theorem logout_clears_session (db : DB) (userId : String) :
    (db.users.find? (fun u => u.id == userId) = none →
      logout db userId = (db, .error (.notFound "User not found"))) ∧
    (∀ user, db.users.find? (fun u => u.id == userId) = some user →
      ∃ db', logout db userId = (db', .ok ⟨"Logged out successfully"⟩) ∧
        db'.tokens = db.tokens.filter (fun t => !(t.userId == userId)) ∧
        (∀ t ∈ db'.tokens, t.userId ≠ userId) ∧
        (∀ x ∈ db'.users, x.id = userId → x.refreshToken = none) ∧
        db'.users.find? (fun u => u.id == userId)
          = some { user with refreshToken := none }) := by
  constructor
  · intro hnone
    simp [logout, hnone]
  · intro user hfind
    have huid : user.id = userId := by simpa using List.find?_some hfind
    refine ⟨{ users := db.users.map (fun x =>
                if x.id == user.id then { user with refreshToken := none } else x),
              tokens := db.tokens.filter (fun t => !(t.userId == userId)) },
      by simp [logout, hfind], rfl, ?_, ?_, ?_⟩
    · intro t ht
      simp only [List.mem_filter, Bool.not_eq_eq_eq_not, Bool.not_true, beq_eq_false_iff_ne,
        ne_eq] at ht
      exact ht.2
    · intro x hx hxid
      rcases List.mem_map.mp hx with ⟨y, hy, hxy⟩
      by_cases hyid : y.id = user.id
      · rw [← hxy, if_pos (by simpa using hyid)]
      · rw [← hxy, if_neg (by simpa using hyid)] at hxid ⊢
        exact absurd (hxid.trans huid.symm) hyid
    · exact find?_map_update db.users userId user { user with refreshToken := none } hfind rfl

/-- Stored refresh token of the C5 witness user. -/
def tokU1 : SignedToken :=
  { sub := "u1", email := some "a@b.c", secret := "rs", iat := 0, exp := 604800000 }

/-- Concrete store for the C5 witness: one logged-in user with two
outstanding magic-link tokens, plus a token of another user. -/
def dbC5 : DB :=
  { users := [{ userW with refreshToken := some tokU1 }]
    tokens := [⟨1, "m1", "u1", 9000⟩, ⟨2, "m2", "u1", 9999⟩, ⟨3, "m3", "u2", 9000⟩] }

/-- Witness for C5: on a concrete store, logout of a missing id fails with
`NotFound`; logout of the existing user returns the confirmation, deletes
both of the user's tokens (and only those), and clears the stored refresh
token. -/
theorem logout_clears_session_witness :
    logout dbC5 "zz" = (dbC5, .error (.notFound "User not found")) ∧
    ∃ db', logout dbC5 "u1" = (db', .ok ⟨"Logged out successfully"⟩) ∧
      db'.tokens = [⟨3, "m3", "u2", 9000⟩] ∧
      db'.users.find? (fun u => u.id == "u1")
        = some { userW with refreshToken := none } := by
  refine ⟨(logout_clears_session dbC5 "zz").1 rfl, ?_⟩
  obtain ⟨db', h1, h2, _, _, h5⟩ :=
    (logout_clears_session dbC5 "u1").2 { userW with refreshToken := some tokU1 } rfl
  exact ⟨db', h1, by rw [h2]; rfl, h5⟩

/-- C7: when `handleOAuthLogin` matches an existing user, each mutable
profile field (firstName, lastName, picture) is set to the incoming
profile's value when that value is non-empty (JS-truthy) and is otherwise
kept at its old stored value — an existing field is never overwritten with
an empty value. -/
theorem handleOAuthLogin_profile_merge (cfg : Config) (now : Nat)
    (freshId : String) (db : DB) (p : OAuthProfile) (u : UserEntity)
    (hfind : db.users.find? (fun x => x.email == p.email) = some u) :
    ∃ db' r, handleOAuthLogin cfg now freshId none db p = (db', .ok r) ∧
      r.user.firstName = (if truthy p.firstName then p.firstName else u.firstName) ∧
      r.user.lastName = (if truthy p.lastName then p.lastName else u.lastName) ∧
      r.user.picture = (if truthy p.picture then p.picture else u.picture) :=
  ⟨_, _, handleOAuthLogin_found cfg now freshId db p u hfind, rfl, rfl, rfl⟩

/-- Concrete store for the C7 witness: one google user with a name and no
picture. -/
def dbC7 : DB :=
  { users := [{ id := "u1", email := "a@b.c", provider := "google",
                providerId := some "g-1", firstName := some "Ann",
                lastName := some "Lee", picture := none, refreshToken := none,
                createdAt := 0 }]
    tokens := [] }

/-- Incoming profile for the C7 witness: empty firstName (kept old),
non-empty lastName (overwritten), non-empty picture (filled in). -/
def profC7 : OAuthProfile :=
  { provider := "linkedin", providerId := "l-1", email := "a@b.c"
    firstName := some "", lastName := some "Li", picture := some "http://p" }

/-- Witness for C7: on the concrete store, the merged response keeps the
old first name (incoming empty), takes the new last name and the new
picture. -/
theorem handleOAuthLogin_profile_merge_witness :
    ∃ db' r, handleOAuthLogin cfgW 50 "f1" none dbC7 profC7 = (db', .ok r) ∧
      r.user.firstName = some "Ann" ∧
      r.user.lastName = some "Li" ∧
      r.user.picture = some "http://p" := by
  obtain ⟨db', r, h1, h2, h3, h4⟩ :=
    handleOAuthLogin_profile_merge cfgW 50 "f1" dbC7 profC7
      { id := "u1", email := "a@b.c", provider := "google",
        providerId := some "g-1", firstName := some "Ann", lastName := some "Lee",
        picture := none, refreshToken := none, createdAt := 0 } rfl
  exact ⟨db', r, h1, by rw [h2]; rfl, by rw [h3]; rfl, by rw [h4]; rfl⟩

/-- Inversion of a successful `refresh`: the presented token verified
against the refresh secret, the subject's row was found with exactly this
token stored, and the result is the rotated pair with the new refresh
token pinned on the row. -/
lemma refresh_ok_inv (cfg : Config) (now : Nat) (sf : Bool) (db : DB)
    (t : SignedToken) (db1 : DB) (pair : TokenPair)
    (h : refresh cfg now sf db t = (db1, .ok pair)) :
    ∃ user, db.users.find? (fun u => u.id == t.sub) = some user ∧
      user.refreshToken = some t ∧
      pair = generateTokens cfg now user ∧
      db1 = { db with users := db.users.map (fun u =>
        if u.id == user.id
        then { user with refreshToken := some (generateTokens cfg now user).refreshToken }
        else u) } := by
  unfold refresh at h
  rcases htry : refreshTry cfg now sf db t with ⟨dbx, rx⟩
  rw [htry] at h
  cases rx with
  | error e => simp at h
  | ok r =>
    simp only [Prod.mk.injEq, Except.ok.injEq] at h
    obtain ⟨hdbx, hr⟩ := h
    unfold refreshTry at htry
    split at htry
    · simp at htry
    · rename_i payload hv
      split at htry
      · simp at htry
      · split at htry
        · simp at htry
        · rename_i user hf
          split at htry
          · simp at htry
          · rename_i hstored
            have hst : user.refreshToken = some t := not_not.mp hstored
            have hps : payload = ⟨t.sub, t.email⟩ := by
              unfold verifyJwt at hv
              split_ifs at hv
              exact (Except.ok.inj hv).symm
            subst hps
            simp only [Prod.mk.injEq, Except.ok.injEq] at htry
            obtain ⟨hA, hB⟩ := htry
            exact ⟨user, hf, hst, by rw [← hr, ← hB], by rw [← hdbx, ← hA]⟩

/-- `refresh` fails with the generic `Unauthorized` whenever no row of the
subject stores the presented token. -/
lemma refresh_mismatch_error (cfg : Config) (now : Nat) (db : DB) (t : SignedToken)
    (h : ∀ user, db.users.find? (fun u => u.id == t.sub) = some user →
          user.refreshToken ≠ some t) :
    (refresh cfg now false db t).2 = .error (.unauthorized "Invalid refresh token") := by
  rcases htry : refreshTry cfg now false db t with ⟨dbx, rx⟩
  cases rx with
  | error e => unfold refresh; rw [htry]
  | ok r =>
    exfalso
    have hok : refresh cfg now false db t = (dbx, .ok r) := by
      unfold refresh; rw [htry]
    obtain ⟨user, hf, hst, _, _⟩ := refresh_ok_inv cfg now false db t dbx r hok
    exact h user hf hst

/-- C1: only the currently stored refresh-token value is accepted by
`refresh` (a success implies the presented token equals the stored slot);
once a successful `refresh` has rotated the slot to a new value, or a
successful `logout` has cleared it, presenting the old token is rejected
with `Unauthorized`. -/
theorem refresh_rejects_rotated_or_cleared (cfg : Config) (db : DB) (t : SignedToken) :
    (∀ now db' pair, refresh cfg now false db t = (db', .ok pair) →
        ∃ user, db.users.find? (fun u => u.id == t.sub) = some user ∧
          user.refreshToken = some t) ∧
    (∀ now1 now2 db1 pair, refresh cfg now1 false db t = (db1, .ok pair) →
        pair.refreshToken ≠ t →
        (refresh cfg now2 false db1 t).2
          = .error (.unauthorized "Invalid refresh token")) ∧
    (∀ uid now2 db1 m, logout db uid = (db1, .ok m) → t.sub = uid →
        (refresh cfg now2 false db1 t).2
          = .error (.unauthorized "Invalid refresh token")) := by
  refine ⟨?_, ?_, ?_⟩
  · intro now db' pair hok
    obtain ⟨user, hf, hst, _, _⟩ := refresh_ok_inv cfg now false db t db' pair hok
    exact ⟨user, hf, hst⟩
  · intro now1 now2 db1 pair hok hne
    obtain ⟨user, hf, hst, hpair, hdb1⟩ := refresh_ok_inv cfg now1 false db t db1 pair hok
    apply refresh_mismatch_error
    intro v hv
    rw [hdb1] at hv
    dsimp only at hv
    rw [find?_map_update db.users t.sub user
        { user with refreshToken := some (generateTokens cfg now1 user).refreshToken }
        hf rfl] at hv
    have hveq : v = { user with
        refreshToken := some (generateTokens cfg now1 user).refreshToken } :=
      (Option.some.injEq _ _).mp hv.symm
    rw [hveq]
    simp only [ne_eq, Option.some.injEq]
    intro hcontra
    exact hne (by rw [hpair]; exact hcontra)
  · intro uid now2 db1 m hlog hsub
    unfold logout at hlog
    split at hlog
    · simp at hlog
    · rename_i user hfind
      simp only [Prod.mk.injEq, Except.ok.injEq] at hlog
      obtain ⟨hdb1, _⟩ := hlog
      apply refresh_mismatch_error
      intro v hv
      rw [← hdb1] at hv
      dsimp only at hv
      rw [hsub] at hv
      rw [find?_map_update db.users uid user
          ({ user with refreshToken := none }) hfind rfl] at hv
      have hveq : v = { user with refreshToken := none } :=
        (Option.some.injEq _ _).mp hv.symm
      rw [hveq]
      simp

/-- Concrete store for the C1 witness: one user holding `tokU1` as its
current refresh token. -/
def dbC1 : DB := { users := [{ userW with refreshToken := some tokU1 }], tokens := [] }

/-- Refresh token minted by the witness rotation (`refresh` at instant 1000). -/
def tokRot : SignedToken :=
  { sub := "u1", email := some "a@b.c", secret := "rs", iat := 1000, exp := 604801000 }

/-- Store after the witness rotation. -/
def dbRot : DB := { users := [{ userW with refreshToken := some tokRot }], tokens := [] }

/-- Token pair produced by the witness rotation. -/
def pairRot : TokenPair :=
  { accessToken := { sub := "u1", email := some "a@b.c", secret := "as", iat := 1000, exp := 901000 }
    refreshToken := tokRot }

/-- Store after the witness logout. -/
def dbLg : DB := { users := [{ userW with refreshToken := none }], tokens := [] }

/-- Witness for C1: on a concrete store, a successful refresh implies the
stored slot held the presented token; after the concrete rotation the old
token is rejected; after the concrete logout the old token is rejected. -/
theorem refresh_rejects_rotated_or_cleared_witness :
    (∃ user, dbC1.users.find? (fun u => u.id == tokU1.sub) = some user ∧
      user.refreshToken = some tokU1) ∧
    (refresh cfgW 2000 false dbRot tokU1).2
      = .error (.unauthorized "Invalid refresh token") ∧
    (refresh cfgW 2000 false dbLg tokU1).2
      = .error (.unauthorized "Invalid refresh token") :=
  ⟨(refresh_rejects_rotated_or_cleared cfgW dbC1 tokU1).1 1000 dbRot pairRot (by decide),
   (refresh_rejects_rotated_or_cleared cfgW dbC1 tokU1).2.1 1000 2000 dbRot pairRot
     (by decide) (by decide),
   (refresh_rejects_rotated_or_cleared cfgW dbC1 tokU1).2.2 "u1" 2000 dbLg
     ⟨"Logged out successfully"⟩ (by decide) rfl⟩

/-! ## C6: magic-link request twice -/

/-- Store after `requestMagicLink` at instant 0 on an empty store
(counterexample scenario, step 1). -/
def dbT1 : DB := (requestMagicLink cfgW 0 "tok1" "u1" 1 false ⟨[], []⟩ "a@b.c").1

/-- Store after a second `requestMagicLink` at instant 1000
(counterexample scenario, step 2). -/
def dbT2 : DB := (requestMagicLink cfgW 1000 "tok2" "u2" 2 false dbT1 "a@b.c").1

/-- C6 counterexample: after two `requestMagicLink` calls for the same
address (instants 0 and 1000, expiry window 900 s), at the instant 2000
when the second call's token is consumed the user has TWO currently valid
(unexpired, undeleted) tokens, not at most one — and the first token is
not superseded: it is still successfully consumable afterwards. -/
theorem requestMagicLink_twice_two_valid_tokens :
    (dbT2.tokens.filter
        (fun t => t.userId == "u1" && !decide (t.expiresAt < 2000))).length = 2 ∧
    (consumeMagicLink cfgW 2000 dbT2 "tok2").2.isOk = true ∧
    (consumeMagicLink cfgW 2500 (consumeMagicLink cfgW 2000 dbT2 "tok2").1
        "tok1").2.isOk = true := by
  refine ⟨by decide, by decide, by decide⟩

/-- The user row created by the first magic-link request of the amended C6
scenario. -/
def mlUser (t : Nat) : UserEntity :=
  { id := "u1", email := "a@b.c", provider := "magic_link", providerId := none
    firstName := none, lastName := none, picture := none, refreshToken := none
    createdAt := t }

/-- C6 (amended): two `requestMagicLink` calls for the same address sweep
only the tokens already expired at the second call — the first token is
deleted by the second call exactly when it has already expired
(`expiresAt < t2`); otherwise both tokens remain stored (and both are
valid until their expiries).  Expired tokens are thus cleaned lazily on
the next request cycle, but an unexpired earlier token is not superseded. -/
theorem requestMagicLink_lazy_sweep (cfg : Config) (t1 t2 : Nat) :
    ((requestMagicLink cfg t2 "tok2" "u2" 2 false
        (requestMagicLink cfg t1 "tok1" "u1" 1 false ⟨[], []⟩ "a@b.c").1
        "a@b.c").1).tokens.map (fun t => t.token)
      = (if t1 + cfg.magicLinkExpirySeconds * 1000 < t2
          then ["tok2"] else ["tok1", "tok2"]) := by
  have h1 : requestMagicLink cfg t1 "tok1" "u1" 1 false ⟨[], []⟩ "a@b.c"
      = (⟨[mlUser t1], [⟨1, "tok1", "u1", t1 + cfg.magicLinkExpirySeconds * 1000⟩]⟩,
         .ok ()) := by
    simp [requestMagicLink, mlUser]
  rw [h1]
  have h2 : ([mlUser t1].find? (fun u => u.email == "a@b.c")) = some (mlUser t1) :=
    List.find?_cons_of_pos _ (by simp [mlUser])
  simp only [requestMagicLink, h2]
  by_cases hlt : t1 + cfg.magicLinkExpirySeconds * 1000 < t2
  · simp [mlUser, List.filter, hlt]
  · simp [mlUser, List.filter, hlt]

/-! ## C4: OAuth email uniqueness -/

/-- Mapping a list of user rows through an update pinned on an id absent
from the list, with the updated row appended, updates exactly the appended
row. -/
lemma map_update_append (l : List UserEntity) (w v : UserEntity)
    (hfresh : ∀ u ∈ l, u.id ≠ w.id) :
    (l ++ [w]).map (fun x => if x.id == w.id then v else x) = l ++ [v] := by
  rw [List.map_append]
  congr 1
  · conv_rhs => rw [← List.map_id l]
    apply List.map_congr_left
    intro a ha
    rw [if_neg (by simpa using hfresh a ha)]
    rfl
  · simp

/-- C4: an OAuth callback for a never-seen email creates exactly one user
row; a second callback carrying the same email (any provider) updates that
row in place and creates no second row — the email stays globally unique
in the user store. -/
theorem handleOAuthLogin_email_unique (cfg1 cfg2 : Config) (now1 now2 : Nat)
    (freshId freshId2 : String) (db : DB) (p1 p2 : OAuthProfile)
    (hemail : p2.email = p1.email)
    (hnone : ∀ u ∈ db.users, u.email ≠ p1.email)
    (hfresh : ∀ u ∈ db.users, u.id ≠ freshId) :
    ∃ w1 w2 db1 r1 db2 r2,
      handleOAuthLogin cfg1 now1 freshId none db p1 = (db1, .ok r1) ∧
      db1.users = db.users ++ [w1] ∧ w1.email = p1.email ∧
      (db1.users.filter (fun u => u.email == p1.email)).length = 1 ∧
      handleOAuthLogin cfg2 now2 freshId2 none db1 p2 = (db2, .ok r2) ∧
      db2.users = db.users ++ [w2] ∧ w2.email = p1.email ∧
      db2.users.length = db1.users.length ∧
      (db2.users.filter (fun u => u.email == p1.email)).length = 1 := by
  have hfind1 : db.users.find? (fun x => x.email == p1.email) = none :=
    List.find?_eq_none.mpr fun x hx => by simpa using hnone x hx
  have hfilter0 : db.users.filter (fun u => u.email == p1.email) = [] :=
    List.filter_eq_nil_iff.mpr fun a ha => by simpa using hnone a ha
  obtain ⟨w1, r1, h1, hw1email, hw1id⟩ :
      ∃ w1 r1, handleOAuthLogin cfg1 now1 freshId none db p1
          = ({ db with users := db.users ++ [w1] }, .ok r1) ∧
        w1.email = p1.email ∧ w1.id = freshId :=
    ⟨_, _, handleOAuthLogin_notFound cfg1 now1 freshId db p1 hfind1, rfl, rfl⟩
  have hnone2 : db.users.find? (fun x => x.email == p2.email) = none :=
    List.find?_eq_none.mpr fun x hx => by
      simp only [beq_iff_eq, hemail]
      exact hnone x hx
  have hfind2 : ({ db with users := db.users ++ [w1] } : DB).users.find?
      (fun x => x.email == p2.email) = some w1 := by
    dsimp only
    rw [List.find?_append, hnone2, Option.none_or]
    exact List.find?_cons_of_pos _ (by simp [hw1email, hemail])
  have h2 := handleOAuthLogin_found cfg2 now2 freshId2
    ({ db with users := db.users ++ [w1] }) p2 w1 hfind2
  have hmap := map_update_append db.users w1
    ({ refreshProfileFields w1 p2 with
        refreshToken := some (generateTokens cfg2 now2
          (refreshProfileFields w1 p2)).refreshToken })
    (fun u hu => by rw [hw1id]; exact hfresh u hu)
  refine ⟨w1,
    { refreshProfileFields w1 p2 with
        refreshToken := some (generateTokens cfg2 now2
          (refreshProfileFields w1 p2)).refreshToken },
    _, r1, _, _, h1, rfl, hw1email, ?_, h2, ?_, ?_, ?_, ?_⟩
  · dsimp only
    rw [List.filter_append, hfilter0]
    simp [hw1email]
  · dsimp only
    exact hmap
  · show ({ refreshProfileFields w1 p2 with
        refreshToken := some (generateTokens cfg2 now2
          (refreshProfileFields w1 p2)).refreshToken } : UserEntity).email = p1.email
    show (refreshProfileFields w1 p2).email = p1.email
    show w1.email = p1.email
    exact hw1email
  · dsimp only
    rw [List.length_map]
  · dsimp only
    rw [hmap, List.filter_append, hfilter0]
    have : (({ refreshProfileFields w1 p2 with
        refreshToken := some (generateTokens cfg2 now2
          (refreshProfileFields w1 p2)).refreshToken } : UserEntity).email
          == p1.email) = true := by
      simp only [beq_iff_eq]
      show w1.email = p1.email
      exact hw1email
    simp [this]

/-- OAuth profile of the first callback in the C4 witness. -/
def profA : OAuthProfile :=
  { provider := "google", providerId := "g9", email := "x@y.z"
    firstName := some "A", lastName := some "B", picture := none }

/-- OAuth profile of the second callback in the C4 witness: same email,
different provider. -/
def profB : OAuthProfile :=
  { provider := "linkedin", providerId := "l9", email := "x@y.z"
    firstName := none, lastName := none, picture := some "pic" }

/-- Witness for C4: starting from the empty store, a google callback
creates exactly one row for the email and a linkedin callback with the
same email creates no second row. -/
theorem handleOAuthLogin_email_unique_witness :
    ∃ w1 w2 db1 r1 db2 r2,
      handleOAuthLogin cfgW 10 "n1" none ⟨[], []⟩ profA = (db1, .ok r1) ∧
      db1.users = (⟨[], []⟩ : DB).users ++ [w1] ∧ w1.email = profA.email ∧
      (db1.users.filter (fun u => u.email == profA.email)).length = 1 ∧
      handleOAuthLogin cfgW 20 "n2" none db1 profB = (db2, .ok r2) ∧
      db2.users = (⟨[], []⟩ : DB).users ++ [w2] ∧ w2.email = profA.email ∧
      db2.users.length = db1.users.length ∧
      (db2.users.filter (fun u => u.email == profA.email)).length = 1 :=
  handleOAuthLogin_email_unique cfgW cfgW 10 20 "n1" "n2" ⟨[], []⟩ profA profB rfl
    (by simp) (by simp)

end BloodAnalyzer
